import Mathlib

/-!
Shallow embedding of the Digital Facial Recognition Attendance System
(`app.py`, `model.py`, `run_pi.py`).

Conventions used throughout:
* machine floats (detection coordinates, confidences, timestamps) are
  modelled as rationals `ℚ`;
* a calendar day is a `ℕ` (the result of `DATE(timestamp)` / `CURDATE()`);
* the `attendance` table is a list of records, newest first (an `INSERT`
  conses a record);
* the external computer-vision library calls (`cv2.cvtColor` to grayscale
  followed by `cv2.resize` to 32×32 `uint8`) are abstracted as a function
  argument producing the 32×32 grid of 8-bit pixel values of the cropped
  region; the classifier's `predict_proba`/`argmax` step is abstracted as a
  function from embeddings to a `(user_id, confidence)` pair.  All claims
  proved below hold for every choice of these functions.
-/

namespace AttendanceSystem

/-! ## Geometry: `model.py`, `crop_face_and_embed` -/

/-- A Mediapipe relative bounding box (`detection.location_data.relative_bounding_box`):
all four fields are fractions of the image dimensions. -/
structure RelBBox where
  xmin : ℚ
  ymin : ℚ
  width : ℚ
  height : ℚ
deriving DecidableEq

/-- Python `int(...)`: truncation toward zero (floor for nonnegative
values, ceiling for negative ones). -/
def pyInt (q : ℚ) : ℤ := if 0 ≤ q then ⌊q⌋ else ⌈q⌉

/-- Dimensions of a BGR image: `h, w = bgr_image.shape[:2]`. -/
structure ImageDims where
  h : ℕ
  w : ℕ
deriving DecidableEq

/-- The integer crop rectangle computed by `crop_face_and_embed`:
`x1 = int(max(0, bbox.xmin * w))`, `y1 = int(max(0, bbox.ymin * h))`,
`x2 = int(min(w, (bbox.xmin + bbox.width) * w))`,
`y2 = int(min(h, (bbox.ymin + bbox.height) * h))`. -/
structure CropRect where
  x1 : ℤ
  y1 : ℤ
  x2 : ℤ
  y2 : ℤ
deriving DecidableEq

def cropRect (dims : ImageDims) (bbox : RelBBox) : CropRect :=
  { x1 := pyInt (max 0 (bbox.xmin * dims.w))
    y1 := pyInt (max 0 (bbox.ymin * dims.h))
    x2 := pyInt (min (dims.w : ℚ) ((bbox.xmin + bbox.width) * dims.w))
    y2 := pyInt (min (dims.h : ℚ) ((bbox.ymin + bbox.height) * dims.h)) }

/-- The grayscale 32×32 resize of the cropped region.  `cv2.cvtColor(face,
COLOR_BGR2GRAY)` followed by `cv2.resize(face, (32,32), INTER_AREA)` is an
external library computation returning `uint8` pixels; it is abstracted as a
function from the crop rectangle (which, with the ambient image, determines
the cropped pixels) to the 32×32 grid of 8-bit values. -/
abbrev GrayResize : Type := CropRect → Fin 32 → Fin 32 → Fin 256

/-- `crop_face_and_embed(bgr_image, detection)` from `model.py`: computes the
clamped integer crop rectangle, returns `None` when it is degenerate
(`x2 <= x1 or y2 <= y1`), and otherwise flattens the 32×32 grayscale resize
row-major and divides by 255. -/
def crop_face_and_embed (resize : GrayResize) (dims : ImageDims)
    (detection : RelBBox) : Option (List ℚ) :=
  if (cropRect dims detection).x2 ≤ (cropRect dims detection).x1 ∨
      (cropRect dims detection).y2 ≤ (cropRect dims detection).y1 then none
  else some ((List.finRange 32).flatMap fun i =>
    (List.finRange 32).map fun j =>
      ((resize (cropRect dims detection) i j : ℕ) : ℚ) / 255)

/-- `extract_embedding_for_image` from `model.py`: `None` when the image
fails to decode, `None` when the detector reports no detections, and
otherwise `crop_face_and_embed(img, results.detections[0])` — the FIRST
detection in the detector's reported order. -/
def extract_embedding_for_image (decoded : Bool) (dims : ImageDims)
    (resize : GrayResize) (detections : List RelBBox) : Option (List ℚ) :=
  if !decoded then none
  else
    match detections with
    | [] => none
    | d :: _ => crop_face_and_embed resize dims d

/-- Area of a relative bounding box. -/
def bboxArea (b : RelBBox) : ℚ := b.width * b.height

/-- Modelled from the spec: "if more than one, deterministically selects the
single largest bounding box (by area)".  No such selection exists in the
source (`model.py` and `run_pi.py` both use `results.detections[0]`); this
definition follows the spec's words, for comparison. -/
def largestDetection (detections : List RelBBox) : Option RelBBox :=
  detections.foldl
    (fun acc d =>
      match acc with
      | none => some d
      | some b => if bboxArea b < bboxArea d then some d else some b)
    none

/-! ## Cooldown gate: `app.py`, `COOLDOWN_SECONDS` / `cooldown_tracker` -/

/-- The `cooldown_tracker` dict: last trigger time per key. -/
abbrev Tracker : Type := List (String × ℚ)

/-- Dict lookup `cooldown_tracker[k]` (`none` models `k not in cooldown_tracker`). -/
def lookupTracker (tr : Tracker) (k : String) : Option ℚ :=
  (tr.find? fun p => p.1 == k).map (·.2)

/-- Dict store `cooldown_tracker[k] = t` (overwrite). -/
def setTracker (tr : Tracker) (k : String) (t : ℚ) : Tracker :=
  (k, t) :: tr.filter fun p => ¬ p.1 == k

/-- The cooldown condition as written at each call site of `app.py`:
`k not in cooldown_tracker or (now - cooldown_tracker[k]) >= w`. -/
def cooldownAllow (tr : Tracker) (k : String) (now w : ℚ) : Bool :=
  match lookupTracker tr k with
  | none => true
  | some last => decide (w ≤ now - last)

/-- One guarded firing: when the condition passes the side effect fires and
`cooldown_tracker[k] = now` is recorded; otherwise nothing changes. -/
def cooldownStep (tr : Tracker) (k : String) (now w : ℚ) : Bool × Tracker :=
  if cooldownAllow tr k now w then (true, setTracker tr k now) else (false, tr)

/-! ## `app.py`, `recognize_face` -/

/-- The `status` field of `last_recognition_result`. -/
inductive PiStatus where
  | error
  | failure
  | success
  | duplicate
deriving DecidableEq

/-- The `last_recognition_result` dict (the `round(confidence, 2)` display
rounding is not modelled; the raw confidence is carried). -/
structure PiResult where
  status : PiStatus
  message : String
  name : Option String
  student_id : Option String
  confidence : Option ℚ
deriving DecidableEq

/-- `system_state`: IDLE, ALIGNING or SCANNING. -/
inductive SystemState where
  | IDLE
  | ALIGNING
  | SCANNING
deriving DecidableEq

/-- The global pipeline state touched by `trigger_attendance`:
`system_state`, `last_recognition_result` (`none` models the cleared `{}`),
and the pending one-shot `threading.Timer` delays (each fires
`set_scanning_state`). -/
structure PiState where
  system_state : SystemState
  last_recognition_result : Option PiResult
  pending_timers : List ℚ
deriving DecidableEq

/-- The JSON response of `/trigger_attendance`. -/
inductive TriggerResponse where
  | busy
  | aligning (seconds : ℕ)
deriving DecidableEq

/-- `trigger_attendance()` from `run_pi.py`: rejected with "busy" unless the
state is IDLE; otherwise transitions to ALIGNING, clears the last result,
and schedules `threading.Timer(10.0, set_scanning_state)`. -/
def trigger_attendance (st : PiState) : TriggerResponse × PiState :=
  if st.system_state ≠ .IDLE then (.busy, st)
  else
    (.aligning 10,
      { system_state := .ALIGNING
        last_recognition_result := none
        pending_timers := st.pending_timers ++ [10] })

/-- `set_scanning_state()` from `run_pi.py`. -/
def set_scanning_state (st : PiState) : PiState :=
  { st with system_state := .SCANNING }

/-! ## `model.py`, `train_model_background`, and the `app.py` status file -/

/-- `MODEL_PATH = "model.pkl"`. -/
def MODEL_PATH : String := "model.pkl"

/-- An input corpus: each entry is a student directory `(user_id, images)`;
each image is what the per-image pipeline (`cv2.imread`, Mediapipe
detection, `crop_face_and_embed`) yields for it — `none` when any of the
three steps fails, `some emb` otherwise. -/
abbrev Corpus : Type := List (String × List (Option (List ℚ)))

/-- A file-system operation performed by the training job.  The fitted
`RandomForestClassifier` is abstracted as the `(embedding, user_id)` set it
was fitted on, which is what a write of the pickled model is a function of. -/
inductive FileOp where
  | write (path : String) (content : List (List ℚ × String))
  | rename (src dst : String)
deriving DecidableEq

/-- The accumulated `(X, y)` training pairs: outer loop over student
directories in order, inner loop over images in order, skipping every image
whose pipeline failed. -/
def extractSamples (students : Corpus) : List (List ℚ × String) :=
  students.flatMap fun s => (s.2.filterMap id).map fun e => (e, s.1)

/-- The per-student progress reports of the extraction phase:
`pct = int((processed / total_students) * 80)` with
`total_students = max(1, len(student_dirs))`. -/
def extractionEvents (n : ℕ) : List (ℤ × String) :=
  (List.range n).map fun i =>
    (((i + 1) * 80 / max 1 n : ℕ),
      "Processed " ++ toString (i + 1) ++ "/" ++ toString (max 1 n) ++ " students")

/-- `train_model_background(dataset_dir, progress_callback)` from
`model.py`, as the pair of its observable traces: the `(percent, message)`
progress reports, and the file operations it performs.  On an empty sample
set it reports `(0, "No training data found")` and returns without touching
the file system; otherwise it reports `(85, ...)`, writes the fitted model
DIRECTLY to `MODEL_PATH` (`open(MODEL_PATH, "wb")` — no temporary file, no
rename), and reports `(100, "Training complete")`. -/
def train_model_background (students : Corpus) :
    List (ℤ × String) × List FileOp :=
  let X := extractSamples students
  let evs := extractionEvents students.length
  if X.isEmpty then
    (evs ++ [(0, "No training data found")], [])
  else
    (evs ++ [(85, "Training RandomForest classifier...")] ++ [(100, "Training complete")],
      [.write MODEL_PATH X])

/-- Replay of a file-operation trace over a file system (path ↦ content). -/
def applyFileOps (fs : String → Option (List (List ℚ × String))) :
    List FileOp → (String → Option (List (List ℚ × String)))
  | [] => fs
  | .write p c :: ops => applyFileOps (fun q => if q = p then some c else fs q) ops
  | .rename src dst :: ops =>
      applyFileOps (fun q => if q = dst then fs src else if q = src then none else fs q) ops

/-- The contents of `train_status.json`. -/
structure TrainStatus where
  running : Bool
  progress : ℤ
  message : String
deriving DecidableEq

/-- The `progress_cb` closure of `app.py` (`train_model_route` and
`admin_train_trigger` alike): every report overwrites the status file with
`{"running": True, "progress": p, "message": m}` — `running` is
unconditionally `True`. -/
def progress_cb (p : ℤ) (m : String) : TrainStatus := ⟨true, p, m⟩

/-- The contents of `train_status.json` after a training run launched by
`app.py` has terminated: the process-start reset `{false, 0, "Idle"}`
followed by one `progress_cb` write per progress report of
`train_model_background`. -/
def statusAfterTraining (students : Corpus) : TrainStatus :=
  (train_model_background students).1.foldl
    (fun _ pm => progress_cb pm.1 pm.2) ⟨false, 0, "Idle"⟩

/-! ## Helper lemmas -/

theorem lookupTracker_setTracker_self (tr : Tracker) (k : String) (t : ℚ) :
    lookupTracker (setTracker tr k t) k = some t := by
  simp [lookupTracker, setTracker]

theorem grid_length {α : Type} (f : Fin 32 → Fin 32 → α) :
    ((List.finRange 32).flatMap fun i =>
      (List.finRange 32).map fun j => f i j).length = 1024 := by
  simp [List.length_flatMap, Function.comp_def, List.map_const', List.sum_replicate,
    smul_eq_mul]

theorem cooldownAllow_iff (tr : Tracker) (k : String) (now w : ℚ) :
    cooldownAllow tr k now w = true ↔
      lookupTracker tr k = none ∨
        ∃ last, lookupTracker tr k = some last ∧ w ≤ now - last := by
  unfold cooldownAllow
  rcases h : lookupTracker tr k with _ | last <;> simp [h]

/-! ## Claims -/

/-- **C3.**  The cooldown check passes iff the key has no recorded
last-trigger time or `now - last ≥ w`; the current time is recorded as the
new last-trigger time exactly when the check passes (otherwise the tracker
is unchanged).  Consequently, with a positive window, an immediate repeat at
the very same time fails the check, while a repeat exactly `w` seconds
later passes (boundary inclusive). -/
theorem cooldown_gate_spec (tr : Tracker) (k : String) (t0 w : ℚ) (hw : 0 < w) :
    (∀ now, cooldownAllow tr k now w = true ↔
      lookupTracker tr k = none ∨
        ∃ last, lookupTracker tr k = some last ∧ w ≤ now - last) ∧
    (∀ now, (cooldownStep tr k now w).1 = cooldownAllow tr k now w) ∧
    (∀ now, cooldownAllow tr k now w = true →
      lookupTracker (cooldownStep tr k now w).2 k = some now) ∧
    (∀ now, cooldownAllow tr k now w = false → (cooldownStep tr k now w).2 = tr) ∧
    ((cooldownStep (setTracker tr k t0) k t0 w).1 = false) ∧
    ((cooldownStep (setTracker tr k t0) k (t0 + w) w).1 = true) := by
  refine ⟨fun now => cooldownAllow_iff tr k now w, fun now => ?_, fun now h => ?_,
    fun now h => ?_, ?_, ?_⟩
  · unfold cooldownStep
    split <;> simp_all
  · simp [cooldownStep, h, lookupTracker_setTracker_self]
  · simp [cooldownStep, h]
  · have h0 : cooldownAllow (setTracker tr k t0) k t0 w = false := by
      simp [cooldownAllow, lookupTracker_setTracker_self]
      linarith
    simp [cooldownStep, h0]
  · have h1 : cooldownAllow (setTracker tr k t0) k (t0 + w) w = true := by
      have hle : w ≤ t0 + w - t0 := by linarith
      simp [cooldownAllow, lookupTracker_setTracker_self, hle]
    simp [cooldownStep, h1]

/-- Witness for C3 at `tr = []`, `k = "A"`, `t0 = 0`, `w = 5`. -/
theorem cooldown_gate_spec_witness :
    (0 : ℚ) < 5 ∧
      (cooldownStep (setTracker [] "A" 0) "A" 0 5).1 = false ∧
      (cooldownStep (setTracker [] "A" 0) "A" (0 + 5) 5).1 = true :=
  ⟨by norm_num,
    (cooldown_gate_spec [] "A" 0 5 (by norm_num)).2.2.2.2.1,
    (cooldown_gate_spec [] "A" 0 5 (by norm_num)).2.2.2.2.2⟩

/-- A constant grayscale-resize (every pixel 0). -/
def constResize : GrayResize := fun _ _ _ => 0

/-- A 100×100 test image. -/
def testDims : ImageDims := ⟨100, 100⟩

/-- A face box covering the top-left quarter of the test image
(crop `(0,0)-(50,50)`). -/
def testBox : RelBBox := ⟨0, 0, 1/2, 1/2⟩

/-- A face box covering the top-left hundredth of the test image
(crop `(0,0)-(10,10)`), strictly smaller in area than `testBox`. -/
def smallBox : RelBBox := ⟨0, 0, 1/10, 1/10⟩

/-- A resize distinguishing the two test crops by their right edge. -/
def echoResize : GrayResize := fun r _ _ => if r.x2 = 10 then 0 else 1

/-- The embedding `crop_face_and_embed constResize testDims testBox` yields. -/
def testEmb : List ℚ :=
  (List.finRange 32).flatMap fun i =>
    (List.finRange 32).map fun j =>
      ((constResize (cropRect testDims testBox) i j : ℕ) : ℚ) / 255

theorem cropRect_testBox : cropRect testDims testBox = ⟨0, 0, 50, 50⟩ := by
  norm_num [cropRect, pyInt, testDims, testBox]

theorem cropRect_smallBox : cropRect testDims smallBox = ⟨0, 0, 10, 10⟩ := by
  norm_num [cropRect, pyInt, testDims, smallBox]

theorem crop_testBox :
    crop_face_and_embed constResize testDims testBox = some testEmb := by
  unfold crop_face_and_embed testEmb
  simp only [cropRect_testBox]
  norm_num

/-- **C9.**  `trigger_attendance` while the pipeline is not IDLE is
rejected with "busy" and has no side effects at all (the state, the last
result and the pending timers are unchanged); from IDLE it transitions to
ALIGNING, clears the last result, and schedules exactly one deferred
`set_scanning_state` transition (which sets the state to SCANNING) after
the fixed 10-second alignment delay. -/
theorem trigger_attendance_spec (st : PiState) :
    (st.system_state ≠ .IDLE → trigger_attendance st = (.busy, st)) ∧
    (st.system_state = .IDLE →
      trigger_attendance st =
        (.aligning 10,
          { system_state := .ALIGNING
            last_recognition_result := none
            pending_timers := st.pending_timers ++ [10] }) ∧
      (set_scanning_state (trigger_attendance st).2).system_state = .SCANNING) := by
  constructor
  · intro h
    simp [trigger_attendance, h]
  · intro h
    constructor <;> simp [trigger_attendance, set_scanning_state, h]

/-- Witness for C9: a busy rejection from SCANNING and a successful trigger
from IDLE, at concrete states. -/
theorem trigger_attendance_spec_witness :
    trigger_attendance ⟨.SCANNING, none, []⟩ = (.busy, ⟨.SCANNING, none, []⟩) ∧
    trigger_attendance ⟨.IDLE, some ⟨.failure, "x", none, none, none⟩, []⟩
        = (.aligning 10, ⟨.ALIGNING, none, [10]⟩) :=
  ⟨(trigger_attendance_spec ⟨.SCANNING, none, []⟩).1 (by simp),
    ((trigger_attendance_spec ⟨.IDLE, some ⟨.failure, "x", none, none, none⟩, []⟩).2
      rfl).1⟩

theorem crop_smallBox :
    crop_face_and_embed echoResize testDims smallBox
      = some (List.replicate 1024 0) := by
  unfold crop_face_and_embed
  simp only [cropRect_smallBox]
  rw [if_neg (by norm_num)]
  refine congrArg some (List.eq_replicate_iff.mpr ⟨grid_length _, ?_⟩)
  intro b hb
  simp only [List.mem_flatMap, List.mem_map, List.mem_finRange, true_and] at hb
  obtain ⟨i, j, rfl⟩ := hb
  norm_num [echoResize]

theorem crop_bigBox :
    crop_face_and_embed echoResize testDims testBox
      = some (List.replicate 1024 (1/255)) := by
  unfold crop_face_and_embed
  simp only [cropRect_testBox]
  rw [if_neg (by norm_num)]
  refine congrArg some (List.eq_replicate_iff.mpr ⟨grid_length _, ?_⟩)
  intro b hb
  simp only [List.mem_flatMap, List.mem_map, List.mem_finRange, true_and] at hb
  obtain ⟨i, j, rfl⟩ := hb
  norm_num [echoResize]

/-- **C5 counterexample.**  On a frame whose detector reports two faces,
the first strictly smaller in area than the second, the extractor processes
the FIRST reported detection (`results.detections[0]`), not the largest by
area: the produced embedding is the small box's, and it differs from the
large box's embedding. -/
theorem largest_box_counterexample :
    extract_embedding_for_image true testDims echoResize [smallBox, testBox]
        = crop_face_and_embed echoResize testDims smallBox ∧
    bboxArea smallBox < bboxArea testBox ∧
    largestDetection [smallBox, testBox] = some testBox ∧
    crop_face_and_embed echoResize testDims smallBox
        ≠ crop_face_and_embed echoResize testDims testBox := by
  have harea : bboxArea smallBox < bboxArea testBox := by
    norm_num [bboxArea, smallBox, testBox]
  refine ⟨rfl, harea, ?_, ?_⟩
  · simp [largestDetection, harea]
  · rw [crop_smallBox, crop_bigBox]
    intro h
    have h0 := congrArg (fun l => l.getD 0 1) (Option.some.inj h)
    norm_num [List.getD] at h0

/-- **C5 amended.**  The extractor returns `None` when the image fails to
decode or when zero faces are detected; when one or more faces are
detected it deterministically processes the FIRST detection in the
detector's reported order (`results.detections[0]`), which need not be the
largest bounding box by area. -/
theorem extractor_first_detection (dims : ImageDims) (resize : GrayResize)
    (detections : List RelBBox) (d : RelBBox) (ds : List RelBBox) :
    extract_embedding_for_image false dims resize detections = none ∧
    extract_embedding_for_image true dims resize [] = none ∧
    extract_embedding_for_image true dims resize (d :: ds)
        = crop_face_and_embed resize dims d :=
  ⟨rfl, rfl, rfl⟩

/-- **C10.**  `crop_face_and_embed` returns `None` exactly when the
bounding box, clamped to the image borders, is degenerate (zero or
negative width or height, i.e. `x2 ≤ x1` or `y2 ≤ y1`); otherwise it
returns an embedding of length exactly 1024 = 32 × 32 whose components all
lie in the closed interval `[0, 1]`. -/
theorem crop_face_and_embed_spec (resize : GrayResize) (dims : ImageDims)
    (detection : RelBBox) :
    (crop_face_and_embed resize dims detection = none ↔
      (cropRect dims detection).x2 ≤ (cropRect dims detection).x1 ∨
        (cropRect dims detection).y2 ≤ (cropRect dims detection).y1) ∧
    (∀ emb, crop_face_and_embed resize dims detection = some emb →
      emb.length = 1024 ∧ ∀ q ∈ emb, 0 ≤ q ∧ q ≤ 1) := by
  constructor
  · unfold crop_face_and_embed
    split_ifs with hdeg <;> simp [hdeg]
  · intro emb hemb
    unfold crop_face_and_embed at hemb
    split_ifs at hemb
    rw [Option.some.injEq] at hemb
    subst hemb
    constructor
    · exact grid_length _
    · intro q hq
      simp only [List.mem_flatMap, List.mem_map, List.mem_finRange, true_and] at hq
      obtain ⟨i, j, rfl⟩ := hq
      have hv : ((resize (cropRect dims detection) i j : ℕ) : ℚ) ≤ 255 := by
        have h256 := (resize (cropRect dims detection) i j).isLt
        have : ((resize (cropRect dims detection) i j : ℕ)) ≤ 255 :=
          Nat.lt_succ_iff.mp h256
        exact_mod_cast this
      constructor
      · positivity
      · rw [div_le_one (by norm_num)]
        exact hv

/-- Witness for C10 at the concrete non-degenerate test crop. -/
theorem crop_face_and_embed_spec_witness :
    testEmb.length = 1024 ∧ ∀ q ∈ testEmb, 0 ≤ q ∧ q ≤ 1 :=
  (crop_face_and_embed_spec constResize testDims testBox).2 testEmb crop_testBox

/-- **C6.**  On a corpus with zero extractable samples the training job's
last progress report is `(0, "No training data found")` and its
file-operation trace is empty, so replaying it over any file system leaves
every file — in particular any pre-existing model file — byte-identical. -/
theorem train_empty_corpus (students : Corpus)
    (h : extractSamples students = []) :
    (train_model_background students).1.getLast?
        = some (0, "No training data found") ∧
    (train_model_background students).2 = [] ∧
    (∀ fs, applyFileOps fs (train_model_background students).2 = fs) := by
  refine ⟨?_, ?_, fun fs => ?_⟩ <;>
    simp [train_model_background, h, applyFileOps, List.getLast?_concat]

/-- Witness for C6 on a corpus of one student whose single image yields no
embedding. -/
theorem train_empty_corpus_witness :
    (train_model_background [("S1", [none])]).1.getLast?
        = some (0, "No training data found") ∧
    (train_model_background [("S1", [none])]).2 = [] :=
  ⟨(train_empty_corpus [("S1", [none])] rfl).1,
    (train_empty_corpus [("S1", [none])] rfl).2.1⟩

/-- **C7 counterexample.**  On a corpus with one extractable sample, the
training job's file-operation trace is a single DIRECT write to
`MODEL_PATH`: there is no write to a temporary location and no rename, so
persistence is write-in-place, contradicting the claimed
write-then-rename. -/
theorem model_save_counterexample :
    (train_model_background [("S1", [some [1]])]).2
        = [FileOp.write MODEL_PATH [([1], "S1")]] := by
  simp [train_model_background, extractSamples]

/-- **C7 amended.**  For every training run that fits a model (at least one
extractable sample), the model is persisted by exactly one direct write to
`MODEL_PATH`; no temporary path is written and no rename is performed
(write-in-place, not write-then-rename). -/
theorem model_save_write_in_place (students : Corpus)
    (h : extractSamples students ≠ []) :
    (train_model_background students).2
        = [FileOp.write MODEL_PATH (extractSamples students)] := by
  have hX : (extractSamples students).isEmpty = false := by
    simpa [List.isEmpty_iff] using h
  simp [train_model_background, hX]

/-- Witness for C7 (amended) on a one-sample corpus. -/
theorem model_save_write_in_place_witness :
    (train_model_background [("S2", [some [2]])]).2
        = [FileOp.write MODEL_PATH (extractSamples [("S2", [some [2]])])] :=
  model_save_write_in_place [("S2", [some [2]])] (by simp [extractSamples])

theorem foldl_progress_running (l : List (ℤ × String)) (init : TrainStatus)
    (h : init.running = true ∨ l ≠ []) :
    (l.foldl (fun _ pm => progress_cb pm.1 pm.2) init).running = true := by
  induction l generalizing init with
  | nil => simpa using h.resolve_right (by simp)
  | cons x xs ih =>
      simp only [List.foldl_cons]
      exact ih _ (Or.inl rfl)

/-- **C8 (code bug).**  The training status is NEVER finalized with
`running = false`: every status write performed by the `progress_cb`
closures of `app.py` hard-codes `"running": True`, including the final
`(100, "Training complete")` report of a successful run and the
`(0, "No training data found")` report of an empty run, and no code path
resets it after the job terminates.  So after every terminated training run
`train_status.json` still reports `running = true` (and the
`/train_model` guard answers "already running" forever), contradicting the
claimed finalization to `{false, 100, "Training complete"}` /
`{false, 0, "<error>"}`. -/
theorem train_status_left_running (students : Corpus) :
    (statusAfterTraining students).running = true ∧
    statusAfterTraining [("S1", [some [1]])] = ⟨true, 100, "Training complete"⟩ := by
  constructor
  · unfold statusAfterTraining
    apply foldl_progress_running
    right
    unfold train_model_background
    by_cases hX : (extractSamples students).isEmpty = true <;> simp [hX]
  · rfl

end AttendanceSystem
